import Mathlib

/-!
# Opti-LogistiX — verification of the damage-aware routing dashboard

Shallow embedding of the dashboard logic in
`src/opti-logistix/src/dashboard/js/app.js` and of the per-edge traversal
cost of `DisasterRoutingEnv.step` in `src/opti-logistix/docs/MVP_ROADMAP.md`.

JavaScript numbers are modelled as exact rationals (`ℚ`).  Calls to
`Math.random()` are modelled by an explicit stream `stream : ℕ → ℚ` of
draws, consumed left to right in source order, with the hypothesis
`0 ≤ stream n ∧ stream n < 1` mirroring the range of `Math.random()`.
-/

namespace OptiLogistix

unseal Rat.add Rat.mul Rat.inv Rat.sub Rat.ofScientific

/-- A latitude/longitude pair, as in the `{lat, lon}` objects of `app.js`. -/
structure Coord where
  lat : ℚ
  lon : ℚ
deriving DecidableEq, Repr

/-- An edge of `state.graphData.edges` in `app.js`: an optional server-assigned
`id` (the demo edges built by `loadDemoData` carry none), the two endpoint
coordinates, and the mutable `damage` field (absent is modelled as 0, as the
rendering code does with `edge.damage || 0`). -/
structure DemoEdge where
  id : Option String
  fromC : Coord
  toC : Coord
  damage : ℚ
deriving DecidableEq, Repr

/-- The demo 5×5 grid built by `loadDemoData` in `app.js` (lines 112–147):
for `i, j ∈ 0..4`, a horizontal edge to `(lat1, lon1 + 0.01)` when `j < 4`
and a vertical edge to `(lat1 + 0.01, lon1)` when `i < 4`, each with
`damage = 0`. -/
def loadDemoDataEdges : List DemoEdge :=
  (List.range 5).flatMap fun i =>
    (List.range 5).flatMap fun j =>
      let lat1 : ℚ := 41 + i * (1/100)
      let lon1 : ℚ := 29 + j * (1/100)
      (if j < 4 then
        [{ id := none, fromC := ⟨lat1, lon1⟩, toC := ⟨lat1, lon1 + 1/100⟩,
           damage := 0 }]
       else []) ++
      (if i < 4 then
        [{ id := none, fromC := ⟨lat1, lon1⟩, toC := ⟨lat1 + 1/100, lon1⟩,
           damage := 0 }]
       else [])

/-- The per-scenario damage rate of `applyDemoScenario` in `app.js`
(line 375): `'hafif' ? 0.15 : 'orta' ? 0.35 : 0.6`. -/
def damageRate (scenario : String) : ℚ :=
  if scenario = "hafif" then 15/100 else if scenario = "orta" then 35/100 else 6/10

/-- One edge's new damage in `applyDemoScenario` (lines 380–385):
`r1` models the draw of `Math.random() < damageRate`, `r2` the draw used in
the taken branch (`Math.random() * 0.5 + 0.3` when damaged, else
`Math.random() * 0.2`). -/
def applyDemoScenarioEdge (rate r1 r2 : ℚ) : ℚ :=
  if r1 < rate then r2 * (1/2) + 3/10 else r2 * (2/10)

/-- The `edges.forEach` loop of `applyDemoScenario`, consuming two random
draws per edge in order. -/
def applyDemoScenarioAux (rate : ℚ) (stream : ℕ → ℚ) : ℕ → List DemoEdge → List DemoEdge
  | _, [] => []
  | k, e :: es =>
    { e with damage := applyDemoScenarioEdge rate (stream k) (stream (k+1)) } ::
      applyDemoScenarioAux rate stream (k+2) es

/-- `applyDemoScenario(scenario)` of `app.js` (lines 374–402), restricted to
its effect on the edge list (the DOM/stat updates have no bearing on edge
state). -/
def applyDemoScenario (scenario : String) (edges : List DemoEdge) (stream : ℕ → ℚ) :
    List DemoEdge :=
  applyDemoScenarioAux (damageRate scenario) stream 0 edges

/-- The `edges.forEach` loop of `applyRandomDamage` (lines 404–409):
`edge.damage = Math.random() * 0.6`, one draw per edge. -/
def applyRandomDamageAux (stream : ℕ → ℚ) : ℕ → List DemoEdge → List DemoEdge
  | _, [] => []
  | k, e :: es =>
    { e with damage := stream k * (6/10) } :: applyRandomDamageAux stream (k+1) es

/-- `applyRandomDamage()` of `app.js` (lines 404–409). -/
def applyRandomDamage (edges : List DemoEdge) (stream : ℕ → ℚ) : List DemoEdge :=
  applyRandomDamageAux stream 0 edges

/-- The edge-state effect of `clearScenario()` in `app.js` (line 325):
`state.graphData.edges.forEach(e => e.damage = 0)`. -/
def clearScenarioEdges (edges : List DemoEdge) : List DemoEdge :=
  edges.map fun e => { e with damage := 0 }

/-- The magnitudes of the three preset scenarios, from the scenario table of
`docs/MVP_ROADMAP.md` (S1 hafif 5.5 Mw, S2 orta 6.5 Mw, S3 şiddetli 7.2 Mw). -/
def scenarioMagnitude (scenario : String) : ℚ :=
  if scenario = "hafif" then 55/10 else if scenario = "orta" then 65/10 else 72/10

/-- The three preset scenario names handled by `applyDemoScenario`. -/
def presetScenarios : List String := ["hafif", "orta", "siddetli"]

/-- Edges with damage at least 0.3 (the "damaged" band of the generator). -/
def countDamagedAtLeast03 (edges : List DemoEdge) : ℕ :=
  edges.countP fun e => decide (3/10 ≤ e.damage)

/-- The literal `"_"` used by the composite key template of `loadDamageMap`. -/
def underscoreStr : String := "_"

/-- The key under which `loadDamageMap` (line 357 of `app.js`) looks an edge
up in the damage map: the server id when present and truthy (a present empty
string is falsy in JavaScript), otherwise the template string interpolating
`edge.from.lat`, an underscore, and `edge.to.lat` — note: both latitudes,
neither longitude. -/
def edgeKey (e : DemoEdge) : String :=
  match e.id with
  | some i =>
      if i = "" then toString e.fromC.lat ++ underscoreStr ++ toString e.toC.lat else i
  | none => toString e.fromC.lat ++ underscoreStr ++ toString e.toC.lat

/-- The `edges.forEach` loop of `loadDamageMap` (lines 356–359 of `app.js`):
`edge.damage = damageMap[id] || Math.random() * 0.5`.  The map value is
`Option ℚ` (`none` = key absent); JavaScript `||` takes the fallback when the
value is absent *or* equal to 0, and only then evaluates `Math.random()`, so
the stream index advances only on the fallback branch. -/
def loadDamageMapAux (damageMap : String → Option ℚ) (stream : ℕ → ℚ) :
    ℕ → List DemoEdge → List DemoEdge
  | _, [] => []
  | k, e :: es =>
    match damageMap (edgeKey e) with
    | some d =>
        if d = 0 then
          { e with damage := stream k * (1/2) } :: loadDamageMapAux damageMap stream (k+1) es
        else
          { e with damage := d } :: loadDamageMapAux damageMap stream k es
    | none =>
        { e with damage := stream k * (1/2) } :: loadDamageMapAux damageMap stream (k+1) es

/-- The edge-state effect of `loadDamageMap` in `app.js` (lines 345–372). -/
def loadDamageMapEdges (damageMap : String → Option ℚ) (edges : List DemoEdge)
    (stream : ℕ → ℚ) : List DemoEdge :=
  loadDamageMapAux damageMap stream 0 edges

/-- The route object produced by `createDemoRoute` in `app.js`
(lines 457–481). -/
structure DemoRoute where
  path_coords : List Coord
  estimated_time : ℚ
  distance_km : ℚ
  risk_score : ℚ
deriving DecidableEq, Repr

/-- The `i`-th point pushed onto `path_coords` by the loop of
`createDemoRoute` (lines 461–467 of `app.js`): linear interpolation at
`t = i / steps` plus a jitter of `(Math.random() - 0.5) * 0.002` on each
coordinate (two draws per point, `lat` first). -/
def demoRoutePoint (startLat startLon endLat endLon : ℚ) (stream : ℕ → ℚ)
    (steps i : ℕ) : Coord :=
  let t : ℚ := (i : ℚ) / (steps : ℚ)
  { lat := startLat + (endLat - startLat) * t + (stream (2*i) - 1/2) * (2/1000),
    lon := startLon + (endLon - startLon) * t + (stream (2*i+1) - 1/2) * (2/1000) }

/-- `createDemoRoute(startLat, startLon, endLat, endLon)` of `app.js`
(lines 457–481): six interpolated, jittered points, and constant
`estimated_time`/`distance_km`/`risk_score`. -/
def createDemoRoute (startLat startLon endLat endLon : ℚ) (stream : ℕ → ℚ) : DemoRoute :=
  let steps : ℕ := 5
  { path_coords :=
      (List.range (steps + 1)).map (demoRoutePoint startLat startLon endLat endLon stream steps),
    estimated_time := 125/10, distance_km := 23/10, risk_score := 25/100 }

/-- Characters taken by the integer/fraction scanner of `parseFloat`. -/
def takeDigits : List Char → List Char × List Char
  | [] => ([], [])
  | c :: cs =>
    if c.isDigit then
      let p := takeDigits cs
      (c :: p.1, p.2)
    else ([], c :: cs)

/-- Value of a digit string read left to right. -/
def digitsToNat (ds : List Char) : ℕ :=
  ds.foldl (fun a c => a * 10 + (c.toNat - 48)) 0

/-- JavaScript `parseFloat` on an already-trimmed character sequence,
restricted to the plain decimal grammar `[+-]? digits [. digits]` (exponent
notation, which the dashboard inputs never produce, is out of scope): the
longest such prefix is parsed, and `none` models `NaN` (no digit found at
all). -/
def parseFloatJS (cs : List Char) : Option ℚ :=
  let p :=
    match cs with
    | '-' :: rest => ((-1 : ℚ), rest)
    | '+' :: rest => ((1 : ℚ), rest)
    | rest => ((1 : ℚ), rest)
  let ip := takeDigits p.2
  let fracDs :=
    match ip.2 with
    | '.' :: rest => (takeDigits rest).1
    | _ => []
  if ip.1.isEmpty && fracDs.isEmpty then none
  else
    some (p.1 * ((digitsToNat ip.1 : ℚ) + (digitsToNat fracDs : ℚ) / (10 ^ fracDs.length)))

/-- JavaScript `String.prototype.split(',')`: cut the character sequence at
every comma, keeping empty pieces. -/
def splitOnCommaAux : List Char → List Char → List (List Char)
  | [], acc => [acc.reverse]
  | c :: cs, acc =>
    if c = ',' then acc.reverse :: splitOnCommaAux cs []
    else splitOnCommaAux cs (c :: acc)

/-- JavaScript `String.prototype.trim`: drop whitespace from both ends. -/
def trimChars (cs : List Char) : List Char :=
  ((cs.dropWhile Char.isWhitespace).reverse.dropWhile Char.isWhitespace).reverse

/-- `input.split(',').map(s => parseFloat(s.trim()))` from `calculateRoute`
(lines 423–424 of `app.js`), over the string's character data. -/
def parseCoords (input : String) : List (Option ℚ) :=
  (splitOnCommaAux input.data []).map fun piece => parseFloatJS (trimChars piece)

/-- Outcome of a `calculateRoute` call: either the early return behind the
empty-input guard, or a `POST /route` request carrying the four parsed
coordinates (`none` models `NaN`/`undefined`). -/
inductive RouteAction where
  | rejected : RouteAction
  | requested (startLat startLon endLat endLon : Option ℚ) : RouteAction
deriving DecidableEq, Repr

/-- The request-decision logic of `calculateRoute` in `app.js`
(lines 414–437): reject when either raw input string is empty
(`!startInput || !endInput`), otherwise split on commas, trim, `parseFloat`
each piece with no further validation, and issue the request with the first
two pieces of each input (a missing piece is `undefined`, modelled `none`). -/
def calculateRoute (startInput endInput : String) : RouteAction :=
  if startInput = "" ∨ endInput = "" then RouteAction.rejected
  else
    let sp := parseCoords startInput
    let ep := parseCoords endInput
    RouteAction.requested (sp.getD 0 none) (sp.getD 1 none) (ep.getD 0 none) (ep.getD 1 none)

/-- Modelled from the spec: the per-edge data the RiskRouter of §4.3 needs.
The RiskRouter itself is not part of `src/` (the repository ships only the
dashboard client, which calls `POST /route` on an external backend), so the
router is embedded from the spec's words. -/
structure SpecEdge where
  src : ℕ
  dst : ℕ
  length : ℚ
  base_speed : ℚ
  damage_score : ℚ
deriving DecidableEq, Repr

/-- Default slowdown constant of the §4.3 cost formula. -/
def K_slowdown : ℚ := 2

/-- Default additive risk-penalty constant of the §4.3 cost formula. -/
def K_risk_penalty : ℚ := 10

/-- The critical-damage threshold of §4.2 (default 0.8). -/
def criticalThreshold : ℚ := 8/10

/-- The §4.3 edge traversal cost
`(length / base_speed) * (1 + damage_score * ks) + damage_score * kr`. -/
def edgeCost (ks kr : ℚ) (e : SpecEdge) : ℚ :=
  (e.length / e.base_speed) * (1 + e.damage_score * ks) + e.damage_score * kr

/-- Total cost of a path under the default constants. -/
def pathCost (p : List SpecEdge) : ℚ :=
  (p.map (edgeCost K_slowdown K_risk_penalty)).sum

/-- An edge is passable iff its damage is strictly below the critical
threshold; edges at or above it are excluded from the search outright. -/
def passable (e : SpecEdge) : Bool :=
  decide (e.damage_score < criticalThreshold)

/-- Modelled from the spec: all simple paths from `a` to `b` using only
passable edges, with a visited set (§4.1: road networks are cyclic) and
enough fuel to cover every simple path. -/
def pathsFrom (edges : List SpecEdge) (b : ℕ) : ℕ → ℕ → List ℕ → List (List SpecEdge)
  | 0, _, _ => []
  | fuel+1, a, visited =>
    if a = b then [[]]
    else
      (edges.filter fun e =>
          e.src == a && passable e && !(visited.contains e.dst)).flatMap
        fun e => (pathsFrom edges b fuel e.dst (e.dst :: visited)).map (e :: ·)

/-- Keep whichever of two candidate paths has the smaller cost. -/
def chooseBetter (best : Option (List SpecEdge)) (p : List SpecEdge) : Option (List SpecEdge) :=
  match best with
  | none => some p
  | some q => if pathCost p < pathCost q then some p else some q

/-- Modelled from the spec: `find_route` of the §4.3 RiskRouter (absent from
`src/`), as a bounded minimum-cost search under the §4.3 edge cost over the
graph with edges at or above the critical threshold excluded (§4.3 step 3);
`none` models `RouteNotFound`.  Coordinate snapping (§4.3 step 1) is omitted:
endpoints are given as node identifiers. -/
def find_route (edges : List SpecEdge) (a b : ℕ) : Option (List SpecEdge) :=
  (pathsFrom edges b (edges.length + 1) a [a]).foldl chooseBetter none

/-- Modelled from the spec's words: "draw `damage_score` uniformly from
[0.3, 1.0]" — the image of a unit draw `r ∈ [0,1)` under the uniform map
onto `[lo, hi]`. -/
def specUniformDraw (lo hi r : ℚ) : ℚ := lo + r * (hi - lo)

/-- The per-edge traversal cost charged by `DisasterRoutingEnv.step` in
`docs/MVP_ROADMAP.md` (lines 310–335): `base_time = length / 50`,
`actual_time = base_time * (1 + edge_damage * 2)`, and the negated reward
contribution `actual_time + edge_damage * 10` (time penalty plus risk
penalty; the goal-arrival urgency bonus is not per-edge). -/
def stepTravelCost (len edge_damage : ℚ) : ℚ :=
  let base_time := len / 50
  let actual_time := base_time * (1 + edge_damage * 2)
  actual_time + edge_damage * 10

/-- A fixed sample edge used to instantiate universally quantified theorems
on concrete inputs. -/
def edge0 : DemoEdge :=
  { id := none, fromC := ⟨41, 29⟩, toC := ⟨41, 29 + 1/100⟩, damage := 0 }

/-- A second sample edge: same latitudes as `edge0`, different longitudes. -/
def edge1 : DemoEdge :=
  { id := none, fromC := ⟨41, 30⟩, toC := ⟨41, 30 + 1/100⟩, damage := 0 }

/-- A fixed sample road edge for the router model. -/
def specEdge0 : SpecEdge :=
  { src := 0, dst := 1, length := 100, base_speed := 50, damage_score := 0 }

/-!
## Helper lemmas
-/

theorem applyDemoScenarioEdge_bounds (rate r1 r2 : ℚ) (h0 : 0 ≤ r2) (h1 : r2 < 1) :
    0 ≤ applyDemoScenarioEdge rate r1 r2 ∧ applyDemoScenarioEdge rate r1 r2 ≤ 1 := by
  unfold applyDemoScenarioEdge
  split <;> constructor <;> linarith

theorem applyDemoScenarioAux_mem_bounds (rate : ℚ) (stream : ℕ → ℚ)
    (hs : ∀ n, 0 ≤ stream n ∧ stream n < 1) :
    ∀ (es : List DemoEdge) (k : ℕ) (e : DemoEdge),
      e ∈ applyDemoScenarioAux rate stream k es → 0 ≤ e.damage ∧ e.damage ≤ 1 := by
  intro es
  induction es with
  | nil => intro k e h; simp [applyDemoScenarioAux] at h
  | cons a as ih =>
    intro k e h
    rcases List.mem_cons.mp h with rfl | h
    · simpa using applyDemoScenarioEdge_bounds rate (stream k) (stream (k+1))
        (hs (k+1)).1 (hs (k+1)).2
    · exact ih (k+2) e h

theorem applyRandomDamageAux_mem_bounds (stream : ℕ → ℚ)
    (hs : ∀ n, 0 ≤ stream n ∧ stream n < 1) :
    ∀ (es : List DemoEdge) (k : ℕ) (e : DemoEdge),
      e ∈ applyRandomDamageAux stream k es → 0 ≤ e.damage ∧ e.damage ≤ 1 := by
  intro es
  induction es with
  | nil => intro k e h; simp [applyRandomDamageAux] at h
  | cons a as ih =>
    intro k e h
    rcases List.mem_cons.mp h with rfl | h
    · have h0 := (hs k).1
      have h1 := (hs k).2
      constructor
      · show 0 ≤ stream k * (6/10)
        linarith
      · show stream k * (6/10) ≤ 1
        linarith
    · exact ih (k+1) e h

theorem applyDemoScenarioEdge_ge03_mono (rate1 rate2 r1 r2 : ℚ) (hr : rate1 ≤ rate2)
    (h0 : 0 ≤ r2) (h1 : r2 < 1)
    (h : 3/10 ≤ applyDemoScenarioEdge rate1 r1 r2) :
    3/10 ≤ applyDemoScenarioEdge rate2 r1 r2 := by
  unfold applyDemoScenarioEdge at h ⊢
  by_cases hc2 : r1 < rate2
  · rw [if_pos hc2]
    linarith
  · have hc1 : ¬ r1 < rate1 := fun hlt => hc2 (lt_of_lt_of_le hlt hr)
    rw [if_neg hc1] at h
    linarith

theorem applyDemoScenarioAux_countP_mono (rate1 rate2 : ℚ) (hr : rate1 ≤ rate2)
    (stream : ℕ → ℚ) (hs : ∀ n, 0 ≤ stream n ∧ stream n < 1) :
    ∀ (es : List DemoEdge) (k : ℕ),
      countDamagedAtLeast03 (applyDemoScenarioAux rate1 stream k es) ≤
        countDamagedAtLeast03 (applyDemoScenarioAux rate2 stream k es) := by
  intro es
  induction es with
  | nil => intro k; simp [applyDemoScenarioAux]
  | cons a as ih =>
    intro k
    unfold countDamagedAtLeast03 at ih ⊢
    simp only [applyDemoScenarioAux, List.countP_cons]
    apply Nat.add_le_add (ih (k+2))
    by_cases hd : (3:ℚ)/10 ≤ applyDemoScenarioEdge rate1 (stream k) (stream (k+1))
    · have hd2 := applyDemoScenarioEdge_ge03_mono rate1 rate2 (stream k) (stream (k+1))
        hr (hs (k+1)).1 (hs (k+1)).2 hd
      simp [hd, hd2]
    · simp [hd]

theorem applyDemoScenarioAux_length (rate : ℚ) (stream : ℕ → ℚ) :
    ∀ (es : List DemoEdge) (k : ℕ),
      (applyDemoScenarioAux rate stream k es).length = es.length := by
  intro es
  induction es with
  | nil => intro k; rfl
  | cons a as ih => intro k; simpa [applyDemoScenarioAux] using ih (k+2)

theorem clearScenarioEdges_applyDemoScenarioAux (rate : ℚ) (stream : ℕ → ℚ) :
    ∀ (es : List DemoEdge) (k : ℕ),
      clearScenarioEdges (applyDemoScenarioAux rate stream k es) = clearScenarioEdges es := by
  intro es
  induction es with
  | nil => intro k; rfl
  | cons a as ih =>
    intro k
    show ({ a with damage := 0 } : DemoEdge) ::
        clearScenarioEdges (applyDemoScenarioAux rate stream (k+2) as) =
      ({ a with damage := 0 } : DemoEdge) :: clearScenarioEdges as
    exact congrArg _ (ih (k+2))

theorem pathsFrom_passable (edges : List SpecEdge) (b : ℕ) :
    ∀ (fuel a : ℕ) (visited : List ℕ) (p : List SpecEdge),
      p ∈ pathsFrom edges b fuel a visited →
        ∀ e ∈ p, e.damage_score < criticalThreshold := by
  intro fuel
  induction fuel with
  | zero => intro a visited p hp; simp [pathsFrom] at hp
  | succ n ih =>
    intro a visited p hp
    by_cases hab : a = b
    · rw [pathsFrom, if_pos hab] at hp
      rcases List.mem_singleton.mp hp with rfl
      intro e he
      simp at he
    · rw [pathsFrom, if_neg hab] at hp
      rcases List.mem_flatMap.mp hp with ⟨e', he', hmap⟩
      rcases List.mem_map.mp hmap with ⟨q, hq, rfl⟩
      have hfil := List.mem_filter.mp he'
      have hpass : passable e' = true := by
        have := hfil.2
        simp only [Bool.and_eq_true] at this
        exact this.1.2
      intro e he
      rcases List.mem_cons.mp he with rfl | he
      · exact of_decide_eq_true hpass
      · exact ih e'.dst (e'.dst :: visited) q hq e he

theorem chooseBetter_eq (acc : Option (List SpecEdge)) (q p : List SpecEdge)
    (h : chooseBetter acc q = some p) : p = q ∨ acc = some p := by
  cases acc with
  | none => exact Or.inl (Option.some.inj h).symm
  | some r =>
    by_cases hc : pathCost q < pathCost r
    · left
      have h' : some q = some p := by simpa [chooseBetter, hc] using h
      exact (Option.some.inj h').symm
    · right
      have h' : some r = some p := by simpa [chooseBetter, hc] using h
      exact congrArg some (Option.some.inj h')

theorem foldl_chooseBetter_mem :
    ∀ (l : List (List SpecEdge)) (acc : Option (List SpecEdge)) (p : List SpecEdge),
      l.foldl chooseBetter acc = some p → p ∈ l ∨ acc = some p := by
  intro l
  induction l with
  | nil =>
    intro acc p h
    right
    simpa using h
  | cons q qs ih =>
    intro acc p h
    rw [List.foldl_cons] at h
    rcases ih (chooseBetter acc q) p h with hmem | hacc
    · exact Or.inl (List.mem_cons_of_mem _ hmem)
    · rcases chooseBetter_eq acc q p hacc with rfl | hx
      · exact Or.inl (List.mem_cons_self _ _)
      · exact Or.inr hx

/-!
## Claims
-/

/-- C1: every route returned by `find_route` contains only edges whose
`damage_score` is strictly below the critical-damage threshold — edges at or
above the threshold are excluded from the search outright. -/
theorem find_route_excludes_critical (edges : List SpecEdge) (a b : ℕ)
    (p : List SpecEdge) (h : find_route edges a b = some p) :
    ∀ e ∈ p, e.damage_score < criticalThreshold := by
  unfold find_route at h
  rcases foldl_chooseBetter_mem _ _ _ h with hmem | hacc
  · exact pathsFrom_passable edges b (edges.length + 1) a [a] p hmem
  · exact absurd hacc (by simp)

/-- Witness for C1 on a one-edge graph: `find_route` returns that edge's
path and the edge is below the critical threshold. -/
theorem find_route_excludes_critical_witness :
    specEdge0.damage_score < criticalThreshold :=
  find_route_excludes_critical [specEdge0] 0 1 [specEdge0] (by decide) specEdge0
    (List.mem_singleton.mpr rfl)

/-- C3: after `applyDemoScenario` (any scenario) or `applyRandomDamage`,
every edge's damage lies in the closed interval [0, 1], given that every
`Math.random()` draw lies in [0, 1). -/
theorem scenario_damage_in_unit_interval (scenario : String) (edges : List DemoEdge)
    (stream : ℕ → ℚ) (hs : ∀ n, 0 ≤ stream n ∧ stream n < 1) :
    (∀ e ∈ applyDemoScenario scenario edges stream, 0 ≤ e.damage ∧ e.damage ≤ 1) ∧
    (∀ e ∈ applyRandomDamage edges stream, 0 ≤ e.damage ∧ e.damage ≤ 1) :=
  ⟨fun e he => applyDemoScenarioAux_mem_bounds (damageRate scenario) stream hs edges 0 e he,
   fun e he => applyRandomDamageAux_mem_bounds stream hs edges 0 e he⟩

/-- Witness for C3: the concrete edge produced by the orta scenario on a
one-edge list with all draws 1/2 has damage within [0, 1]. -/
theorem scenario_damage_in_unit_interval_witness :
    0 ≤ ({ edge0 with damage := (1:ℚ)/2 * (2/10) } : DemoEdge).damage ∧
    ({ edge0 with damage := (1:ℚ)/2 * (2/10) } : DemoEdge).damage ≤ 1 :=
  (scenario_damage_in_unit_interval "orta" [edge0] (fun _ => 1/2)
      (fun _ => ⟨by norm_num, by norm_num⟩)).1
    { edge0 with damage := (1:ℚ)/2 * (2/10) } (by decide)

/-- C4: clearing the active scenario zeroes every edge's damage, is
idempotent, and yields the same edge state no matter which scenario was
applied before. -/
theorem clearScenario_idempotent_and_zero (edges : List DemoEdge) (scenario : String)
    (stream : ℕ → ℚ) :
    (clearScenarioEdges edges).map DemoEdge.damage = List.replicate edges.length 0 ∧
    clearScenarioEdges (clearScenarioEdges edges) = clearScenarioEdges edges ∧
    clearScenarioEdges (applyDemoScenario scenario edges stream) = clearScenarioEdges edges := by
  refine ⟨?_, ?_, clearScenarioEdges_applyDemoScenarioAux (damageRate scenario) stream edges 0⟩
  · induction edges with
    | nil => rfl
    | cons a as ih => simpa [clearScenarioEdges, List.replicate] using ih
  · induction edges with
    | nil => rfl
    | cons a as ih =>
      show ({ a with damage := 0 } : DemoEdge) ::
          clearScenarioEdges (clearScenarioEdges as) =
        ({ a with damage := 0 } : DemoEdge) :: clearScenarioEdges as
      exact congrArg _ ih

/-- C7: the per-edge traversal cost charged by `DisasterRoutingEnv.step`
equals the spec's formula
`(length / base_speed) * (1 + damage * K_slowdown) + damage * K_risk_penalty`
with `base_speed = 50` and default constants `K_slowdown = 2`,
`K_risk_penalty = 10`, and the router model charges the same formula. -/
theorem stepTravelCost_matches_spec_formula (len d : ℚ) :
    stepTravelCost len d = (len / 50) * (1 + d * K_slowdown) + d * K_risk_penalty ∧
    (∀ e : SpecEdge, edgeCost K_slowdown K_risk_penalty e =
      (e.length / e.base_speed) * (1 + e.damage_score * 2) + e.damage_score * 10) ∧
    K_slowdown = 2 ∧ K_risk_penalty = 10 :=
  ⟨rfl, fun _ => rfl, rfl, rfl⟩

/-- C9: the fallback demo graph of `loadDemoData` has exactly 40 edges —
20 horizontal (equal latitudes) and 20 vertical (equal longitudes), each
spanning one 0.01-degree grid step, no duplicates — and every edge has
damage 0. -/
theorem loadDemoData_grid :
    loadDemoDataEdges.length = 40 ∧
    loadDemoDataEdges.countP (fun e => decide (e.fromC.lat = e.toC.lat)) = 20 ∧
    loadDemoDataEdges.countP (fun e => decide (e.fromC.lon = e.toC.lon)) = 20 ∧
    loadDemoDataEdges.all (fun e =>
      decide (e.toC.lat = e.fromC.lat ∧ e.toC.lon = e.fromC.lon + 1/100) ||
      decide (e.toC.lon = e.fromC.lon ∧ e.toC.lat = e.fromC.lat + 1/100)) = true ∧
    loadDemoDataEdges.all (fun e => decide (e.damage = 0)) = true ∧
    loadDemoDataEdges.Nodup := by
  refine ⟨by decide, by decide, by decide, by decide, by decide, by decide⟩

/-- C2 counterexample: in the damaged branch (`r1 = 0` is below
`base_prob = 0.6`) a unit draw of `r2 = 0.9` yields `0.9 * 0.5 + 0.3 = 0.75`,
whereas drawing uniformly from [0.3, 1.0] at the same unit draw yields
`0.3 + 0.9 * 0.7 = 0.93`; the code's damaged draw moreover stays below 0.8,
so it is not a uniform draw from [0.3, 1.0]. -/
theorem applyDemoScenarioEdge_not_uniform_03_10 :
    applyDemoScenarioEdge (6/10) 0 (9/10) = 75/100 ∧
    specUniformDraw (3/10) 1 (9/10) = 93/100 ∧
    ((75:ℚ)/100) ≠ 93/100 ∧ applyDemoScenarioEdge (6/10) 0 (9/10) < 8/10 := by
  refine ⟨by decide, by decide, by decide, by decide⟩

/-- C2 (amended): for every edge, a uniformly random value `r1` is drawn; if
it is below `base_prob` the damage is `r2 * 0.5 + 0.3`, i.e. drawn uniformly
from [0.3, 0.8) (not [0.3, 1.0]); otherwise it is `r2 * 0.2`, drawn uniformly
from [0, 0.2) (a fresh draw rather than a hard 0). -/
theorem applyDemoScenarioEdge_branches (rate r1 r2 : ℚ) (h0 : 0 ≤ r2) (h1 : r2 < 1) :
    (r1 < rate →
      applyDemoScenarioEdge rate r1 r2 = r2 * (1/2) + 3/10 ∧
      3/10 ≤ applyDemoScenarioEdge rate r1 r2 ∧
      applyDemoScenarioEdge rate r1 r2 < 8/10) ∧
    (rate ≤ r1 →
      applyDemoScenarioEdge rate r1 r2 = r2 * (2/10) ∧
      0 ≤ applyDemoScenarioEdge rate r1 r2 ∧
      applyDemoScenarioEdge rate r1 r2 < 2/10) := by
  unfold applyDemoScenarioEdge
  constructor
  · intro h
    rw [if_pos h]
    refine ⟨rfl, by linarith, by linarith⟩
  · intro h
    rw [if_neg (not_lt.mpr h)]
    refine ⟨rfl, by linarith, by linarith⟩

/-- Witness for the amended C2 at `rate = 0.6`, `r1 = 0`, `r2 = 1/2`. -/
theorem applyDemoScenarioEdge_branches_witness :
    applyDemoScenarioEdge (6/10) 0 (1/2) = (1/2) * (1/2) + 3/10 ∧
    3/10 ≤ applyDemoScenarioEdge (6/10) 0 (1/2) ∧
    applyDemoScenarioEdge (6/10) 0 (1/2) < 8/10 :=
  (applyDemoScenarioEdge_branches (6/10) 0 (1/2) (by norm_num) (by norm_num)).1
    (by norm_num)

/-- C5 counterexample: two `createDemoRoute` calls with identical start/end
inputs (the function reads neither the graph nor the damage map) but
different `Math.random()` draws return different coordinate sequences, so
route computation is not determined by the graph, damage map and start/end
inputs alone. -/
theorem createDemoRoute_not_input_deterministic :
    (createDemoRoute 41 29 (41 + 4/100) (29 + 4/100) (fun _ => 1/2)).path_coords ≠
      (createDemoRoute 41 29 (41 + 4/100) (29 + 4/100) (fun _ => 0)).path_coords := by
  decide

/-- C5 (amended): `createDemoRoute` is deterministic in its start/end inputs
*and* the twelve random draws it consumes — calls agreeing on those return
identical routes — and the numeric summaries are the constants 12.5, 2.3 and
0.25 regardless of inputs; but the coordinate sequence depends on the random
jitter, so identical start/end inputs alone do not determine the path. -/
theorem createDemoRoute_deterministic_in_draws (startLat startLon endLat endLon : ℚ)
    (st1 st2 : ℕ → ℚ) (h : ∀ n, n < 12 → st1 n = st2 n) :
    createDemoRoute startLat startLon endLat endLon st1 =
      createDemoRoute startLat startLon endLat endLon st2 ∧
    (createDemoRoute startLat startLon endLat endLon st1).estimated_time = 125/10 ∧
    (createDemoRoute startLat startLon endLat endLon st1).distance_km = 23/10 ∧
    (createDemoRoute startLat startLon endLat endLon st1).risk_score = 25/100 := by
  refine ⟨?_, rfl, rfl, rfl⟩
  unfold createDemoRoute
  dsimp only
  congr 1
  apply List.map_congr_left
  intro i hi
  have hi6 : i < 6 := List.mem_range.mp hi
  unfold demoRoutePoint
  rw [h (2*i) (by omega), h (2*i+1) (by omega)]

/-- Witness for the amended C5: two streams agreeing on the first twelve
draws give the same route. -/
theorem createDemoRoute_deterministic_in_draws_witness :
    createDemoRoute 41 29 (41 + 4/100) (29 + 4/100) (fun _ => 1/2) =
      createDemoRoute 41 29 (41 + 4/100) (29 + 4/100) (fun n => if n < 12 then 1/2 else 0) :=
  (createDemoRoute_deterministic_in_draws 41 29 (41 + 4/100) (29 + 4/100)
      (fun _ => 1/2) (fun n => if n < 12 then 1/2 else 0)
      (fun n hn => by simp [hn])).1

/-- C6: for preset scenarios ordered by magnitude (hafif 5.5 < orta 6.5 <
şiddetli 7.2) applied to the same edges with the same random draws, the
number of edges ending with damage ≥ 0.3 is monotonically non-decreasing in
magnitude, and the edge count is unchanged (so the fraction is monotone as
well). -/
theorem scenario_damaged_fraction_mono (s1 s2 : String)
    (h1 : s1 ∈ presetScenarios) (h2 : s2 ∈ presetScenarios)
    (hm : scenarioMagnitude s1 < scenarioMagnitude s2)
    (edges : List DemoEdge) (stream : ℕ → ℚ)
    (hs : ∀ n, 0 ≤ stream n ∧ stream n < 1) :
    countDamagedAtLeast03 (applyDemoScenario s1 edges stream) ≤
      countDamagedAtLeast03 (applyDemoScenario s2 edges stream) ∧
    (applyDemoScenario s1 edges stream).length =
      (applyDemoScenario s2 edges stream).length := by
  have hrate : damageRate s1 ≤ damageRate s2 := by
    simp only [presetScenarios, List.mem_cons, List.not_mem_nil, or_false] at h1 h2
    rcases h1 with rfl | rfl | rfl <;> rcases h2 with rfl | rfl | rfl <;>
      first
        | (exact absurd hm (by decide))
        | decide
  constructor
  · exact applyDemoScenarioAux_countP_mono (damageRate s1) (damageRate s2) hrate
      stream hs edges 0
  · unfold applyDemoScenario
    rw [applyDemoScenarioAux_length, applyDemoScenarioAux_length]

/-- Witness for C6: hafif versus orta on a one-edge list with all draws
equal to 1/2. -/
theorem scenario_damaged_fraction_mono_witness :
    countDamagedAtLeast03 (applyDemoScenario "hafif" [edge0] (fun _ => 1/2)) ≤
      countDamagedAtLeast03 (applyDemoScenario "orta" [edge0] (fun _ => 1/2)) ∧
    (applyDemoScenario "hafif" [edge0] (fun _ => 1/2)).length =
      (applyDemoScenario "orta" [edge0] (fun _ => 1/2)).length :=
  scenario_damaged_fraction_mono "hafif" "orta" (by decide) (by decide)
    (by decide) [edge0] (fun _ => 1/2)
    (fun _ => ⟨by norm_num, by norm_num⟩)

/-- C8 counterexample: an edge without an id (every demo edge) is keyed by
the composite coordinate string, under which the distinct edges `edge0` and
`edge1` collide; and an edge absent from the damage map does not get damage
0 — with a draw of 0.8 it gets `0.8 * 0.5 = 0.4`. -/
theorem loadDamageMap_coordinate_key_and_nonzero_fallback :
    loadDamageMapEdges (fun _ => none) [edge0] (fun _ => 8/10) =
      [{ edge0 with damage := (8/10 : ℚ) * (1/2) }] ∧
    ({ edge0 with damage := (8/10 : ℚ) * (1/2) } : DemoEdge).damage ≠ 0 ∧
    edgeKey edge0 = edgeKey edge1 ∧ edge0 ≠ edge1 := by
  refine ⟨rfl, by decide, rfl, by decide⟩

/-- C8 (amended): `loadDamageMap` looks damage up by the server id when one
is present and non-empty, but keys id-less edges by the composite string of
the two endpoint latitudes (a floating-point-coordinate key, under which
distinct edges collide), and an edge absent from the damage map — or mapped
to damage 0 — receives a fresh random value in [0, 0.5), not 0. -/
theorem loadDamageMap_lookup_behavior (damageMap : String → Option ℚ)
    (stream : ℕ → ℚ) (k : ℕ) (e : DemoEdge) (es : List DemoEdge) :
    (damageMap (edgeKey e) = none →
      loadDamageMapAux damageMap stream k (e :: es) =
        { e with damage := stream k * (1/2) } ::
          loadDamageMapAux damageMap stream (k+1) es) ∧
    (damageMap (edgeKey e) = some 0 →
      loadDamageMapAux damageMap stream k (e :: es) =
        { e with damage := stream k * (1/2) } ::
          loadDamageMapAux damageMap stream (k+1) es) ∧
    (∀ d, damageMap (edgeKey e) = some d → d ≠ 0 →
      loadDamageMapAux damageMap stream k (e :: es) =
        { e with damage := d } :: loadDamageMapAux damageMap stream k es) ∧
    (∀ e', e.id = none → e'.id = none → e'.fromC.lat = e.fromC.lat →
      e'.toC.lat = e.toC.lat → edgeKey e' = edgeKey e) := by
  refine ⟨?_, ?_, ?_, ?_⟩
  · intro h
    simp [loadDamageMapAux, h]
  · intro h
    simp [loadDamageMapAux, h]
  · intro d h hd
    simp [loadDamageMapAux, h, hd]
  · intro e' he he' hlat1 hlat2
    unfold edgeKey
    rw [he, he', hlat1, hlat2]

/-- Witness for the amended C8: the absent-key branch on `edge0` with a draw
of 0.8. -/
theorem loadDamageMap_lookup_behavior_witness :
    loadDamageMapAux (fun _ => none) (fun _ => 8/10) 0 [edge0] =
      { edge0 with damage := (8/10 : ℚ) * (1/2) } ::
        loadDamageMapAux (fun _ => none) (fun _ => 8/10) 1 [] :=
  (loadDamageMap_lookup_behavior (fun _ => none) (fun _ => 8/10) 0 edge0 []).1 rfl

/-- C10: `calculateRoute` issues a route request exactly when both raw input
strings are non-empty, and performs no numeric validation: the non-empty,
non-numeric inputs "abc" and "x,y" are still sent, with `NaN` (modelled
`none`) coordinates, rather than rejected. -/
theorem calculateRoute_guard_no_validation :
    (∀ startInput endInput : String,
      calculateRoute startInput endInput = RouteAction.rejected ↔
        (startInput = "" ∨ endInput = "")) ∧
    calculateRoute "abc" "x,y" = RouteAction.requested none none none none ∧
    calculateRoute "abc" "1, 2" = RouteAction.requested none none (some 1) (some 2) := by
  refine ⟨?_, by decide, by decide⟩
  intro startInput endInput
  constructor
  · intro h
    by_contra hne
    rw [not_or] at hne
    unfold calculateRoute at h
    rw [if_neg (by tauto)] at h
    exact RouteAction.noConfusion h
  · intro h
    unfold calculateRoute
    rw [if_pos h]

end OptiLogistix
